import Mathlib

set_option maxRecDepth 100000

/- Shallow embedding of
   src/integrations/amazon_bedrock/src/haystack_integrations/components/generators/
   amazon_bedrock/converse/converse_generator.py (AmazonBedrockConverseGenerator).
   External collaborators (the capabilities registry module, the utils data types,
   the AWS session and the bedrock-runtime transport client) are modelled as
   explicit parameters or abstract payload types. -/

/-- The ModelCapability enumeration.
Modelled from the spec: the capabilities module is imported by the source but is
not under src/; the spec fixes the seven tags SYSTEM_PROMPTS, VISION,
DOCUMENT_CHAT, TOOL_USE, STREAMING_TOOL_USE, CONVERSE_STREAM, GUARDRAILS,
comparable by identity. -/
inductive ModelCapability
  | SYSTEM_PROMPTS
  | VISION
  | DOCUMENT_CHAT
  | TOOL_USE
  | STREAMING_TOOL_USE
  | CONVERSE_STREAM
  | GUARDRAILS
deriving DecidableEq, Repr

/-- A capability set for one model; the source only uses membership tests. -/
abbrev Caps := List ModelCapability

/-- Opaque payload of an inference configuration dictionary. -/
abbrev InferenceConfig := Nat

/-- Opaque payload of a run-time ToolConfig object (utils.ToolConfig, a class
instance, hence always truthy in Python when present). -/
abbrev ToolConfig := Nat

/-- Opaque payload of the constructor's tool_config dictionary. -/
abbrev ToolConfigDict := Nat

/-- Opaque payload of one system-prompt content dictionary. -/
abbrev SysBlock := String

/-- Opaque payload of the usage mapping in a response. -/
abbrev UsageData := Nat

/-- Opaque payload of the metrics mapping in a response. -/
abbrev MetricsData := Nat

/-- Opaque payload of the guardrail trace mapping in a response. -/
abbrev TraceData := Nat

/-- Opaque handle to the lazy event stream of a streaming response. -/
abbrev StreamHandle := Nat

/-- A streaming callback, identified by the qualified name of the function
(function objects are always truthy in Python; serialize_callable maps one to
its import path). -/
abbrev Callback := String

/-- Message of a botocore ClientError raised by the transport. -/
abbrev ClientError := String

/-- Role of a conversation message.
Modelled from the spec: utils.ConverseRole is not under src/; the spec lists
user/assistant/system. -/
inductive ConverseRole
  | user
  | assistant
  | system
deriving DecidableEq, Repr

/-- One content block of a conversation message.
Modelled from the spec: the utils content-block variants are not under src/;
the spec lists a polymorphic variant over Text, Image, Document, ToolUse,
ToolResult. The source only discriminates ImageBlock from the rest. -/
inductive ContentBlock
  | text (s : String)
  | image (source : String)
  | document (d : String)
  | toolUse (t : String)
  | toolResult (t : String)
deriving DecidableEq, Repr

/-- True exactly on the Image variant: isinstance(item, ImageBlock). -/
def ContentBlock.isImage : ContentBlock → Bool
  | .image _ => true
  | _ => false

/-- The content carrier inside a ConverseMessage; the source reads and writes
msg.content.content, a list of content blocks (mutable in place). -/
structure ConverseContent where
  content : List ContentBlock
deriving DecidableEq, Repr

/-- A conversation message (utils.ConverseMessage).
Modelled from the spec: role plus an ordered sequence of content blocks. -/
structure ConverseMessage where
  role : ConverseRole
  content : ConverseContent
deriving DecidableEq, Repr

/-- An element of the caller's messages argument: either a ConverseMessage or
some other Python object (isinstance check fails on the latter). -/
inductive MessageItem
  | converse (m : ConverseMessage)
  | other (tag : String)
deriving DecidableEq, Repr

/-- isinstance(message, ConverseMessage). -/
def MessageItem.isConverse : MessageItem → Bool
  | .converse _ => true
  | .other _ => false

/-- The messages argument of run: either not a Python list at all, or a list of
arbitrary elements (isinstance(messages, list) discriminates). -/
inductive RunMessages
  | notAList (tag : String)
  | ofList (l : List MessageItem)
deriving DecidableEq, Repr

/-- The validation test at the top of run:
isinstance(messages, list) and len(messages) > 0 and
all(isinstance(message, ConverseMessage) for message in messages).
Returns the underlying ConverseMessage list when the test passes. -/
def validMessages : RunMessages → Option (List ConverseMessage)
  | .notAList _ => none
  | .ofList l =>
    if l.length > 0 && l.all MessageItem.isConverse then
      some (l.filterMap (fun item =>
        match item with
        | .converse m => some m
        | .other _ => none))
    else none

/-- Python truthiness of an Optional[List]: None and the empty list are falsy. -/
def pyTruthy : Option (List α) → Bool
  | none => false
  | some l => !l.isEmpty

/-- Python `a or b` for Optional[List] values (used for system_prompt). -/
def pyOrList (a b : Option (List α)) : Option (List α) :=
  if pyTruthy a then a else b

/-- Python `a or b` for optional function values: a function object is always
truthy, None is falsy (used for streaming_callback). -/
def pyOrOpt (a b : Option α) : Option α :=
  if a.isSome then a else b

/-- An AWS Secret: the env var it resolves from and its resolved raw value. -/
structure Secret where
  envVar : String
  value : String
deriving DecidableEq, Repr

/-- Serialized form of a Secret (Secret.to_dict): a resolvable reference to the
environment variable; it carries no raw value field at all. -/
structure SecretRef where
  envVar : String
deriving DecidableEq, Repr

/-- Secret.to_dict: serialize as an env-var reference, never the raw value. -/
def Secret.toRef (s : Secret) : SecretRef := ⟨s.envVar⟩

/-- deserialize_secrets_inplace / Secret.from_dict: rebuild a Secret from its
reference, resolving the value from the environment. -/
def SecretRef.toSecret (env : String → String) (r : SecretRef) : Secret :=
  ⟨r.envVar, env r.envVar⟩

/-- A registry pattern, abstracting re.match(pattern, model): the Boolean says
whether the regex matches anchored at the start of the identifier. -/
abbrev Pattern := String → Bool

/-- MODEL_CAPABILITIES: ordered (pattern, capability set) pairs, first match
wins. The concrete table lives in the capabilities module (not under src/), so
the registry is a parameter here. -/
abbrev Registry := List (Pattern × Caps)

/-- _get_model_capabilities: iterate the registry in declaration order, return
the capabilities of the first entry whose pattern matches, else raise
ValueError with the offending identifier. -/
def getModelCapabilities (registry : Registry) (model : String) :
    Except String Caps :=
  match registry with
  | [] => Except.error s!"Unsupported model: {model}"
  | pc :: rest =>
    if pc.1 model then Except.ok pc.2 else getModelCapabilities rest model

/-- The constructor state of the generator after a successful __init__. -/
structure Generator where
  model : String
  aws_access_key_id : Option Secret
  aws_secret_access_key : Option Secret
  aws_session_token : Option Secret
  aws_region_name : Option Secret
  aws_profile_name : Option Secret
  inference_config : Option InferenceConfig
  tool_config : Option ToolConfigDict
  streaming_callback : Option Callback
  system_prompt : Option (List SysBlock)
  model_capabilities : Caps
deriving DecidableEq, Repr

/-- Errors surfaced by __init__. -/
inductive InitError
  | valueError (msg : String)
  | configurationError (msg : String) (cause : String)
deriving DecidableEq, Repr

/-- The fixed message of the AmazonBedrockConfigurationError raised by the
catch-all except block of __init__. -/
def bedrockConfigMsg : String :=
  "Could not connect to Amazon Bedrock. Make sure the AWS environment is configured correctly. See https://boto3.amazonaws.com/v1/documentation/api/latest/guide/quickstart.html#configuration"

deriving instance DecidableEq for Except

/-- Outcome of get_aws_session and session.client (external collaborators):
either success or the message of the exception they raise. -/
structure AwsEnv where
  sessionResult : Except String Unit
deriving DecidableEq, Repr

/-- __init__: reject an empty model, then inside one try block create the AWS
session and resolve the model capabilities; any exception raised there
(including the ValueError of _get_model_capabilities) is caught and re-raised
as AmazonBedrockConfigurationError with the original exception as cause. -/
def init (registry : Registry) (env : AwsEnv) (model : String)
    (aws_access_key_id aws_secret_access_key aws_session_token
     aws_region_name aws_profile_name : Option Secret)
    (inference_config : Option InferenceConfig)
    (tool_config : Option ToolConfigDict)
    (streaming_callback : Option Callback)
    (system_prompt : Option (List SysBlock)) : Except InitError Generator :=
  if model = "" then
    Except.error (InitError.valueError "'model' cannot be None or empty string")
  else
    match env.sessionResult with
    | Except.error e => Except.error (InitError.configurationError bedrockConfigMsg e)
    | Except.ok _ =>
      match getModelCapabilities registry model with
      | Except.error e =>
        Except.error (InitError.configurationError bedrockConfigMsg e)
      | Except.ok caps =>
        Except.ok
          { model := model
            aws_access_key_id := aws_access_key_id
            aws_secret_access_key := aws_secret_access_key
            aws_session_token := aws_session_token
            aws_region_name := aws_region_name
            aws_profile_name := aws_profile_name
            inference_config := inference_config
            tool_config := tool_config
            streaming_callback := streaming_callback
            system_prompt := system_prompt
            model_capabilities := caps }

/-- Warning and error message texts of the source (f-strings naming the model). -/
def invalidInputMsg (model : String) : String :=
  s!"The model {model} requires a list of ConverseMessage objects as input."

/-- Warning of the SYSTEM_PROMPTS check. -/
def systemPromptWarning (model : String) : String :=
  s!"The model {model} does not support system prompts. The provided system_prompt will be ignored."

/-- Warning of the VISION check. -/
def visionWarning (model : String) : String :=
  s!"The model {model} does not support vision. Image content has been removed."

/-- Warning of the DOCUMENT_CHAT check. -/
def documentChatWarning (model : String) : String :=
  s!"The model {model} does not support document chat. This feature will not be available."

/-- Warning of the TOOL_USE check. -/
def toolUseWarning (model : String) : String :=
  s!"The model {model} does not support tools. The provided tool_config will be ignored."

/-- Warning of the STREAMING_TOOL_USE check. -/
def streamingToolUseWarning (model : String) : String :=
  s!"The model {model} does not support streaming tool use. Streaming will be disabled for tool calls."

/-- Message of the AmazonBedrockInferenceError wrapping a ClientError. -/
def inferenceErrorMsg (model : String) (e : ClientError) : String :=
  s!"Could not run inference on Amazon Bedrock model {model} due to: {e}"

/-- The request_kwargs mapping built by run; toolConfig is the optional key,
present exactly when a tool configuration is still present after filtering.
The mapping has no other keys, in particular no system-prompt key. -/
structure Request where
  modelId : String
  inferenceConfig : InferenceConfig
  messages : List ConverseMessage
  toolConfig : Option ToolConfig
deriving DecidableEq, Repr

/-- Build the request mapping from exactly its four fields. -/
def buildRequest (modelId : String) (inferenceConfig : InferenceConfig)
    (messages : List ConverseMessage) (toolConfig : Option ToolConfig) : Request :=
  { modelId := modelId, inferenceConfig := inferenceConfig,
    messages := messages, toolConfig := toolConfig }

/-- The metadata mapping read during normalization (usage, metrics, trace,
stopReason keys, each possibly absent). -/
structure Metadata where
  usage : Option UsageData
  metrics : Option MetricsData
  trace : Option TraceData
  stopReason : Option String
deriving DecidableEq, Repr

/-- The "output" field of a buffered response; its "message" key may be absent. -/
structure RespOutput where
  message : Option ConverseMessage
deriving DecidableEq, Repr

/-- A buffered converse response: the metadata keys plus an optional "output"
field (on the buffered path, run uses the whole response as the metadata). -/
structure ConverseResponse extends Metadata where
  output : Option RespOutput
deriving DecidableEq, Repr

/-- A converse_stream response: the "stream" field handle. -/
structure StreamResponse where
  stream : StreamHandle
deriving DecidableEq, Repr

/-- The transport client (session.client("bedrock-runtime")), an external
collaborator: converse and converse_stream either return a response or raise a
botocore ClientError. getStreamMessage stands for utils.get_stream_message.
Modelled from the spec: get_stream_message is not under src/; it consumes the
stream to completion and accumulates the deltas into one final message and one
metadata mapping, so its result is a function of the stream handle. -/
structure Client where
  converse : Request → Except ClientError ConverseResponse
  converseStream : Request → Except ClientError StreamResponse
  getStreamMessage : StreamHandle → ConverseMessage × Metadata

/-- Errors surfaced by run. -/
inductive RunError
  | valueError (msg : String)
  | keyError (msg : String)
  | inferenceError (msg : String) (cause : ClientError)
deriving DecidableEq, Repr

/-- The output record of run: message, usage, metrics, guardrail_trace,
stop_reason. -/
structure RunResult where
  message : ConverseMessage
  usage : Option UsageData
  metrics : Option MetricsData
  guardrail_trace : Option TraceData
  stop_reason : Option String
deriving DecidableEq, Repr

/-- One invocation of a transport operation together with the request sent. -/
inductive TransportCall
  | buffered (req : Request)
  | streaming (req : Request)
deriving DecidableEq, Repr

/-- The request of a transport call. -/
def TransportCall.request : TransportCall → Request
  | .buffered r => r
  | .streaming r => r

/-- The observable effect of one run call: the warnings logged in order, the
final state of the caller's messages argument (mutated in place), the
transport operations invoked with their requests, and the returned result or
the raised error. -/
structure RunEffect where
  warnings : List String
  messagesAfter : RunMessages
  calls : List TransportCall
  result : Except RunError RunResult
deriving DecidableEq, Repr

/-- Strip the Image-variant blocks from one message:
msg.content.content = [item for item in msg.content.content
                       if not isinstance(item, ImageBlock)]. -/
def stripImageBlocks (m : ConverseMessage) : ConverseMessage :=
  { m with content := ⟨m.content.content.filter (fun item => !item.isImage)⟩ }

/-- Whether a message still holds an Image block. -/
def msgHasImage (m : ConverseMessage) : Bool :=
  m.content.content.any ContentBlock.isImage

/-- The normalization step: build the output record from the message and the
metadata, suppressing the guardrail trace for models lacking GUARDRAILS. -/
def mkRunResult (caps : Caps) (message : ConverseMessage) (metadata : Metadata) :
    RunResult :=
  { message := message
    usage := metadata.usage
    metrics := metadata.metrics
    guardrail_trace :=
      if ModelCapability.GUARDRAILS ∈ caps then metadata.trace else none
    stop_reason := metadata.stopReason }

/-- The try block of run: dispatch to converse_stream when a streaming callback
is in effect and CONVERSE_STREAM is in the capability set, else to converse;
on the buffered path check the output/message structure (KeyError propagates
as-is); a ClientError from either transport is re-raised as
AmazonBedrockInferenceError naming the model and wrapping the cause. -/
def dispatchTransport (g : Generator) (client : Client)
    (streaming_callback : Option Callback) (request : Request) :
    TransportCall × Except RunError RunResult :=
  if streaming_callback.isSome = true ∧
      ModelCapability.CONVERSE_STREAM ∈ g.model_capabilities then
    match client.converseStream request with
    | Except.error e =>
      (TransportCall.streaming request,
       Except.error (RunError.inferenceError (inferenceErrorMsg g.model e) e))
    | Except.ok response =>
      let sm := client.getStreamMessage response.stream
      (TransportCall.streaming request,
       Except.ok (mkRunResult g.model_capabilities sm.1 sm.2))
  else
    match client.converse request with
    | Except.error e =>
      (TransportCall.buffered request,
       Except.error (RunError.inferenceError (inferenceErrorMsg g.model e) e))
    | Except.ok response =>
      match response.output with
      | none =>
        (TransportCall.buffered request,
         Except.error (RunError.keyError "Response does not contain 'output'"))
      | some output =>
        match output.message with
        | none =>
          (TransportCall.buffered request,
           Except.error
             (RunError.keyError "Response 'output' does not contain 'message'"))
        | some message =>
          (TransportCall.buffered request,
           Except.ok (mkRunResult g.model_capabilities message
             response.toMetadata))

/-- The body of run after the input validation passed, with the effective
streaming_callback and system_prompt already resolved. Follows the source
statement by statement: the SYSTEM_PROMPTS check (the dropped system_prompt is
never read again), the VISION strip with its warning test performed on the
already-filtered messages, the unconditional DOCUMENT_CHAT advisory, the
TOOL_USE drop, the STREAMING_TOOL_USE advisory on the post-drop tool_config,
then request building and dispatch. -/
def runValidated (g : Generator) (client : Client)
    (msgs : List ConverseMessage) (streaming_callback : Option Callback)
    (inference_config : InferenceConfig) (tool_config : Option ToolConfig)
    (system_prompt : Option (List SysBlock)) : RunEffect :=
  let sysWarnings :=
    if ModelCapability.SYSTEM_PROMPTS ∉ g.model_capabilities ∧
        pyTruthy system_prompt = true then
      [systemPromptWarning g.model]
    else []
  let msgs :=
    if ModelCapability.VISION ∉ g.model_capabilities then
      msgs.map stripImageBlocks
    else msgs
  let visionWarnings :=
    if ModelCapability.VISION ∉ g.model_capabilities ∧
        msgs.any msgHasImage = true then
      [visionWarning g.model]
    else []
  let docWarnings :=
    if ModelCapability.DOCUMENT_CHAT ∉ g.model_capabilities then
      [documentChatWarning g.model]
    else []
  let toolWarnings :=
    if ModelCapability.TOOL_USE ∉ g.model_capabilities ∧
        tool_config.isSome = true then
      [toolUseWarning g.model]
    else []
  let tool_config :=
    if ModelCapability.TOOL_USE ∉ g.model_capabilities ∧
        tool_config.isSome = true then
      none
    else tool_config
  let streamToolWarnings :=
    if ModelCapability.STREAMING_TOOL_USE ∉ g.model_capabilities ∧
        streaming_callback.isSome = true ∧ tool_config.isSome = true then
      [streamingToolUseWarning g.model]
    else []
  let request := buildRequest g.model inference_config msgs tool_config
  let dr := dispatchTransport g client streaming_callback request
  { warnings :=
      sysWarnings ++ visionWarnings ++ docWarnings ++ toolWarnings ++
        streamToolWarnings
    messagesAfter := RunMessages.ofList (msgs.map MessageItem.converse)
    calls := [dr.1]
    result := dr.2 }

/-- run: resolve the effective streaming_callback and system_prompt with
Python `or` against the constructor values, validate the messages argument
(ValueError before any filtering or transport activity), then run the
capability-gated pipeline. -/
def run (g : Generator) (client : Client) (messages : RunMessages)
    (streaming_callback : Option Callback)
    (inference_config : InferenceConfig) (tool_config : Option ToolConfig)
    (system_prompt : Option (List SysBlock)) : RunEffect :=
  let streaming_callback := pyOrOpt streaming_callback g.streaming_callback
  let system_prompt := pyOrList system_prompt g.system_prompt
  match validMessages messages with
  | none =>
    { warnings := []
      messagesAfter := messages
      calls := []
      result := Except.error (RunError.valueError (invalidInputMsg g.model)) }
  | some msgs =>
    runValidated g client msgs streaming_callback inference_config
      tool_config system_prompt

/-- Serialized form of the generator (to_dict): the five credentials as
references, the model, and the streaming callback as the qualified name of the
function; inference_config, tool_config and system_prompt are not serialized. -/
structure SerializedGenerator where
  aws_access_key_id : Option SecretRef
  aws_secret_access_key : Option SecretRef
  aws_session_token : Option SecretRef
  aws_region_name : Option SecretRef
  aws_profile_name : Option SecretRef
  model : String
  streaming_callback : Option String
deriving DecidableEq, Repr

/-- serialize_callable: the import path of the named function. -/
def serializeCallable (c : Callback) : String := c

/-- deserialize_callable: resolve the import path back to the function. -/
def deserializeCallable (s : String) : Callback := s

/-- to_dict: serialize the credentials as references (never raw values), the
model, and the callback name. -/
def Generator.to_dict (g : Generator) : SerializedGenerator :=
  { aws_access_key_id := g.aws_access_key_id.map Secret.toRef
    aws_secret_access_key := g.aws_secret_access_key.map Secret.toRef
    aws_session_token := g.aws_session_token.map Secret.toRef
    aws_region_name := g.aws_region_name.map Secret.toRef
    aws_profile_name := g.aws_profile_name.map Secret.toRef
    model := g.model
    streaming_callback := g.streaming_callback.map serializeCallable }

/-- from_dict: deserialize the callback and the secrets in place, then rebuild
the instance through __init__ with the serialized init parameters; the
parameters absent from the serialized form (inference_config, tool_config,
system_prompt) take their constructor defaults (None). -/
def from_dict (registry : Registry) (env : AwsEnv)
    (secretEnv : String → String) (d : SerializedGenerator) :
    Except InitError Generator :=
  init registry env d.model
    (d.aws_access_key_id.map (SecretRef.toSecret secretEnv))
    (d.aws_secret_access_key.map (SecretRef.toSecret secretEnv))
    (d.aws_session_token.map (SecretRef.toSecret secretEnv))
    (d.aws_region_name.map (SecretRef.toSecret secretEnv))
    (d.aws_profile_name.map (SecretRef.toSecret secretEnv))
    none none
    (d.streaming_callback.map deserializeCallable)
    none

/-- The request run sends for a validated message list: the vision-filtered
messages and the tool configuration surviving the TOOL_USE drop (derived form
of the request let-binding in runValidated, used to state properties). -/
def runRequest (g : Generator) (msgs : List ConverseMessage)
    (ic : InferenceConfig) (tc : Option ToolConfig) : Request :=
  buildRequest g.model ic
    (if ModelCapability.VISION ∉ g.model_capabilities then
       msgs.map stripImageBlocks
     else msgs)
    (if ModelCapability.TOOL_USE ∉ g.model_capabilities ∧ tc.isSome = true then
       none
     else tc)

/-- A capability set with every capability. -/
def allCaps : Caps :=
  [ModelCapability.SYSTEM_PROMPTS, ModelCapability.VISION,
   ModelCapability.DOCUMENT_CHAT, ModelCapability.TOOL_USE,
   ModelCapability.STREAMING_TOOL_USE, ModelCapability.CONVERSE_STREAM,
   ModelCapability.GUARDRAILS]

/-- Character-list prefix test, used to model literal-prefix regex patterns. -/
def charsMatchAtStart : List Char → List Char → Bool
  | [], _ => true
  | _ :: _, [] => false
  | c :: cs, d :: ds => c = d && charsMatchAtStart cs ds

/-- A literal-prefix pattern, the simplest regex shape of the capability table:
re.match(p, m) succeeds exactly when p is a prefix of m. -/
def literalPattern (p : String) : Pattern :=
  fun m => charsMatchAtStart p.data m.data

/-- A small concrete registry in the shape the spec gives for the capability
table: ordered literal-prefix patterns, first match wins. -/
def demoRegistry : Registry :=
  [(literalPattern "claude-vision",
    [ModelCapability.SYSTEM_PROMPTS, ModelCapability.VISION,
     ModelCapability.CONVERSE_STREAM]),
   (literalPattern "demo", allCaps)]

/-- An AWS environment whose session creation succeeds. -/
def okEnv : AwsEnv := ⟨Except.ok ()⟩

/-- A concrete environment for secret resolution. -/
def demoSecretEnv : String → String := fun v => s!"resolved-{v}"

/-- A plain text-only user message. -/
def demoMessage : ConverseMessage :=
  ⟨ConverseRole.user, ⟨[ContentBlock.text "hello"]⟩⟩

/-- A valid messages argument holding one text-only message. -/
def demoMessages : RunMessages :=
  RunMessages.ofList [MessageItem.converse demoMessage]

/-- A messages argument holding a message with a text and an image block. -/
def imageMessages : RunMessages :=
  RunMessages.ofList
    [MessageItem.converse
      ⟨ConverseRole.user, ⟨[ContentBlock.text "hi", ContentBlock.image "cat.png"]⟩⟩]

/-- Metadata accumulated on the streaming path. -/
def demoMeta : Metadata :=
  { usage := some 1, metrics := some 2, trace := some 3,
    stopReason := some "end_turn" }

/-- A well-formed buffered response carrying every metadata key and a trace. -/
def demoResponse : ConverseResponse :=
  { usage := some 1, metrics := some 2, trace := some 3,
    stopReason := some "end_turn", output := some ⟨some demoMessage⟩ }

/-- A buffered response with no "output" key. -/
def noOutputResponse : ConverseResponse :=
  { usage := none, metrics := none, trace := none, stopReason := none,
    output := none }

/-- A buffered response whose "output" has no "message" key. -/
def noMessageResponse : ConverseResponse :=
  { usage := none, metrics := none, trace := none, stopReason := none,
    output := some ⟨none⟩ }

/-- A transport client whose calls all succeed with the demo payloads. -/
def okClient : Client :=
  { converse := fun _ => Except.ok demoResponse
    converseStream := fun _ => Except.ok ⟨7⟩
    getStreamMessage := fun _ => (demoMessage, demoMeta) }

/-- A transport client whose calls all raise a ClientError. -/
def failClient : Client :=
  { converse := fun _ => Except.error "ThrottlingException"
    converseStream := fun _ => Except.error "ThrottlingException"
    getStreamMessage := fun _ => (demoMessage, demoMeta) }

/-- A transport client returning a response without the "output" key. -/
def noOutputClient : Client :=
  { converse := fun _ => Except.ok noOutputResponse
    converseStream := fun _ => Except.ok ⟨7⟩
    getStreamMessage := fun _ => (demoMessage, demoMeta) }

/-- A generator instance over the full capability set. -/
def baseGen : Generator :=
  { model := "demo-model"
    aws_access_key_id := none
    aws_secret_access_key := none
    aws_session_token := none
    aws_region_name := none
    aws_profile_name := none
    inference_config := none
    tool_config := none
    streaming_callback := none
    system_prompt := none
    model_capabilities := allCaps }

/-- A generator whose capability set lacks VISION only. -/
def noVisionGen : Generator :=
  { baseGen with
    model := "novision-model"
    model_capabilities :=
      [ModelCapability.SYSTEM_PROMPTS, ModelCapability.DOCUMENT_CHAT,
       ModelCapability.TOOL_USE, ModelCapability.STREAMING_TOOL_USE,
       ModelCapability.CONVERSE_STREAM, ModelCapability.GUARDRAILS] }

/-- A generator carrying every optional constructor parameter, to exercise the
serialization round trip. -/
def c9Gen : Generator :=
  { baseGen with
    aws_access_key_id := some ⟨"AWS_ACCESS_KEY_ID", "raw-key-value"⟩
    aws_secret_access_key := some ⟨"AWS_SECRET_ACCESS_KEY", "raw-secret-value"⟩
    inference_config := some 5
    tool_config := some 6
    streaming_callback := some "mypkg.print_chunk"
    system_prompt := some ["You are terse."] }

/-- A generator whose capability set lacks GUARDRAILS only. -/
def noGuardGen : Generator :=
  { baseGen with
    model := "noguard-model"
    model_capabilities :=
      [ModelCapability.SYSTEM_PROMPTS, ModelCapability.VISION,
       ModelCapability.DOCUMENT_CHAT, ModelCapability.TOOL_USE,
       ModelCapability.STREAMING_TOOL_USE, ModelCapability.CONVERSE_STREAM] }

/-- A generator whose capability set lacks SYSTEM_PROMPTS only. -/
def noSysGen : Generator :=
  { baseGen with
    model := "nosys-model"
    model_capabilities :=
      [ModelCapability.VISION, ModelCapability.DOCUMENT_CHAT,
       ModelCapability.TOOL_USE, ModelCapability.STREAMING_TOOL_USE,
       ModelCapability.CONVERSE_STREAM, ModelCapability.GUARDRAILS] }

/-- Helper: a registry where no pattern matches makes _get_model_capabilities
raise the unsupported-model ValueError. -/
theorem getModelCapabilities_no_match (registry : Registry) (model : String)
    (h : ∀ pc ∈ registry, pc.1 model = false) :
    getModelCapabilities registry model =
      Except.error s!"Unsupported model: {model}" := by
  induction registry with
  | nil => rfl
  | cons hd tl ih =>
    unfold getModelCapabilities
    rw [h hd (List.mem_cons_self hd tl)]
    simp only [Bool.false_eq_true, if_false]
    exact ih fun pc hpc => h pc (List.mem_cons_of_mem hd hpc)

/-- Helper: serializing a secret and deserializing it preserves the env-var
reference. -/
theorem secretRef_roundtrip_envVar (secretEnv : String → String)
    (o : Option Secret) :
    ((o.map Secret.toRef).map (SecretRef.toSecret secretEnv)).map Secret.envVar =
      o.map Secret.envVar := by
  cases o <;> rfl

/-- Helper: run on a valid messages argument reduces to the validated body with
the effective callback and system prompt. -/
theorem run_valid_eq (g : Generator) (client : Client) (messages : RunMessages)
    (cb : Option Callback) (ic : InferenceConfig) (tc : Option ToolConfig)
    (sp : Option (List SysBlock)) (msgs : List ConverseMessage)
    (hv : validMessages messages = some msgs) :
    run g client messages cb ic tc sp =
      runValidated g client msgs (pyOrOpt cb g.streaming_callback) ic tc
        (pyOrList sp g.system_prompt) := by
  unfold run
  rw [hv]

/-- C5: a messages argument that is empty, not a list, or holds an element that
is not a ConverseMessage makes run raise the ValueError naming the model,
with no warning logged, no transport call made, and the caller's messages
unchanged. -/
theorem c5_invalid_input_rejected (g : Generator) (client : Client)
    (messages : RunMessages) (cb : Option Callback) (ic : InferenceConfig)
    (tc : Option ToolConfig) (sp : Option (List SysBlock))
    (hv : validMessages messages = none) :
    run g client messages cb ic tc sp =
      { warnings := []
        messagesAfter := messages
        calls := []
        result := Except.error (RunError.valueError (invalidInputMsg g.model)) } := by
  unfold run
  rw [hv]

/-- Witness for C5 at the empty messages list. -/
theorem c5_invalid_input_rejected_witness :
    validMessages (RunMessages.ofList []) = none ∧
    run baseGen okClient (RunMessages.ofList []) none 0 none none =
      { warnings := []
        messagesAfter := RunMessages.ofList []
        calls := []
        result :=
          Except.error (RunError.valueError (invalidInputMsg baseGen.model)) } :=
  ⟨rfl, c5_invalid_input_rejected baseGen okClient (RunMessages.ofList [])
    none 0 none none rfl⟩

/-- C3 counterexample: for a model matching no registry pattern, the error that
reaches the caller of the constructor is the AmazonBedrockConfigurationError of
the catch-all except block (whose own message does not name the model), not
the unsupported-model ValueError, which survives only as the wrapped cause. -/
theorem c3_counterexample :
    init demoRegistry okEnv "totally-unknown" none none none none none none
        none none none =
      Except.error (InitError.configurationError bedrockConfigMsg
        "Unsupported model: totally-unknown") ∧
    (Except.error (InitError.configurationError bedrockConfigMsg
        "Unsupported model: totally-unknown") : Except InitError Generator) ≠
      Except.error (InitError.valueError
        "Unsupported model: totally-unknown") :=
  ⟨by decide, by decide⟩

/-- C3 (amended): for every model identifier matching no registry pattern (and
a non-empty identifier with a working AWS session), construction fails at
construction time, but with an AmazonBedrockConfigurationError that wraps the
unsupported-model ValueError carrying the offending identifier as its cause. -/
theorem c3_unsupported_model_wrapped (registry : Registry) (env : AwsEnv)
    (model : String) (a1 a2 a3 a4 a5 : Option Secret)
    (ic : Option InferenceConfig) (tc : Option ToolConfigDict)
    (cb : Option Callback) (sp : Option (List SysBlock))
    (hm : ¬ model = "") (hs : env.sessionResult = Except.ok ())
    (hn : ∀ pc ∈ registry, pc.1 model = false) :
    init registry env model a1 a2 a3 a4 a5 ic tc cb sp =
      Except.error (InitError.configurationError bedrockConfigMsg
        s!"Unsupported model: {model}") := by
  unfold init
  rw [if_neg hm, hs, getModelCapabilities_no_match registry model hn]

/-- Witness for C3 (amended) at a concrete unmatched identifier. -/
theorem c3_unsupported_model_wrapped_witness :
    (¬ "other-model" = "") ∧ okEnv.sessionResult = Except.ok () ∧
    (∀ pc ∈ demoRegistry, pc.1 "other-model" = false) ∧
    init demoRegistry okEnv "other-model" none none none none none none
        none none none =
      Except.error (InitError.configurationError bedrockConfigMsg
        "Unsupported model: other-model") :=
  ⟨by decide, rfl, by decide,
   c3_unsupported_model_wrapped demoRegistry okEnv "other-model" none none
     none none none none none none none (by decide) rfl (by decide)⟩

/-- C1 (code bug): on a model lacking VISION, with a message containing a text
and an image block, run does strip the Image block from the caller's message
in place, but logs no vision warning at all: the source tests for remaining
Image blocks only after the strip, so the test is always false and the
promised warning is unreachable. -/
theorem c1_image_stripped_but_never_warned :
    (run noVisionGen okClient imageMessages none 0 none none).messagesAfter =
      RunMessages.ofList
        [MessageItem.converse
          ⟨ConverseRole.user, ⟨[ContentBlock.text "hi"]⟩⟩] ∧
    visionWarning noVisionGen.model ∉
      (run noVisionGen okClient imageMessages none 0 none none).warnings ∧
    (run noVisionGen okClient imageMessages none 0 none none).warnings = [] := by
  refine ⟨by decide, by decide, by decide⟩

/-- C9 counterexample: a generator constructed with a non-None
inference_config loses it across to_dict / from_dict, because to_dict does not
serialize inference_config (nor tool_config, nor system_prompt). -/
theorem c9_counterexample :
    c9Gen.inference_config = some 5 ∧
    (from_dict demoRegistry okEnv demoSecretEnv c9Gen.to_dict).map
        Generator.inference_config = Except.ok none := by
  exact ⟨rfl, by decide⟩

/-- C9 (amended): the to_dict / from_dict round trip preserves the model, the
streaming callback as a named-function reference, and the credentials as
resolvable env-var references (and the serialized form is independent of the
raw secret values, so no raw value is ever serialized); but inference_config,
tool_config and system_prompt are not serialized and come back as None. -/
theorem c9_roundtrip_amended (registry : Registry) (env : AwsEnv)
    (secretEnv : String → String) (g : Generator) (caps : Caps)
    (hm : ¬ g.model = "") (hs : env.sessionResult = Except.ok ())
    (hc : getModelCapabilities registry g.model = Except.ok caps) :
    (∃ g', from_dict registry env secretEnv g.to_dict = Except.ok g' ∧
      g'.model = g.model ∧
      g'.streaming_callback = g.streaming_callback ∧
      g'.aws_access_key_id.map Secret.envVar =
        g.aws_access_key_id.map Secret.envVar ∧
      g'.aws_secret_access_key.map Secret.envVar =
        g.aws_secret_access_key.map Secret.envVar ∧
      g'.aws_session_token.map Secret.envVar =
        g.aws_session_token.map Secret.envVar ∧
      g'.aws_region_name.map Secret.envVar =
        g.aws_region_name.map Secret.envVar ∧
      g'.aws_profile_name.map Secret.envVar =
        g.aws_profile_name.map Secret.envVar ∧
      g'.inference_config = none ∧ g'.tool_config = none ∧
      g'.system_prompt = none ∧ g'.model_capabilities = caps) ∧
    (∀ f : String → String,
      Generator.to_dict
        { g with
          aws_access_key_id :=
            g.aws_access_key_id.map (fun s => ⟨s.envVar, f s.value⟩)
          aws_secret_access_key :=
            g.aws_secret_access_key.map (fun s => ⟨s.envVar, f s.value⟩)
          aws_session_token :=
            g.aws_session_token.map (fun s => ⟨s.envVar, f s.value⟩)
          aws_region_name :=
            g.aws_region_name.map (fun s => ⟨s.envVar, f s.value⟩)
          aws_profile_name :=
            g.aws_profile_name.map (fun s => ⟨s.envVar, f s.value⟩) } =
      Generator.to_dict g) := by
  constructor
  · have hrun : from_dict registry env secretEnv g.to_dict =
        Except.ok
          { model := g.model
            aws_access_key_id :=
              (g.aws_access_key_id.map Secret.toRef).map
                (SecretRef.toSecret secretEnv)
            aws_secret_access_key :=
              (g.aws_secret_access_key.map Secret.toRef).map
                (SecretRef.toSecret secretEnv)
            aws_session_token :=
              (g.aws_session_token.map Secret.toRef).map
                (SecretRef.toSecret secretEnv)
            aws_region_name :=
              (g.aws_region_name.map Secret.toRef).map
                (SecretRef.toSecret secretEnv)
            aws_profile_name :=
              (g.aws_profile_name.map Secret.toRef).map
                (SecretRef.toSecret secretEnv)
            inference_config := none
            tool_config := none
            streaming_callback :=
              (g.streaming_callback.map serializeCallable).map
                deserializeCallable
            system_prompt := none
            model_capabilities := caps } := by
      unfold from_dict Generator.to_dict init
      rw [if_neg hm, hs, hc]
    refine ⟨_, hrun, rfl, ?_, secretRef_roundtrip_envVar secretEnv _,
      secretRef_roundtrip_envVar secretEnv _,
      secretRef_roundtrip_envVar secretEnv _,
      secretRef_roundtrip_envVar secretEnv _,
      secretRef_roundtrip_envVar secretEnv _, rfl, rfl, rfl, rfl⟩
    cases g.streaming_callback <;> rfl
  · intro f
    have h1 : ∀ o : Option Secret,
        (o.map (fun s => (⟨s.envVar, f s.value⟩ : Secret))).map Secret.toRef =
          o.map Secret.toRef := by
      intro o; cases o <;> rfl
    simp only [Generator.to_dict, h1]

/-- Witness for C9 (amended) at the fully populated demo generator. -/
theorem c9_roundtrip_amended_witness :
    (¬ c9Gen.model = "") ∧ okEnv.sessionResult = Except.ok () ∧
    getModelCapabilities demoRegistry c9Gen.model = Except.ok allCaps ∧
    ((∃ g', from_dict demoRegistry okEnv demoSecretEnv c9Gen.to_dict =
        Except.ok g' ∧
      g'.model = c9Gen.model ∧
      g'.streaming_callback = c9Gen.streaming_callback ∧
      g'.aws_access_key_id.map Secret.envVar =
        c9Gen.aws_access_key_id.map Secret.envVar ∧
      g'.aws_secret_access_key.map Secret.envVar =
        c9Gen.aws_secret_access_key.map Secret.envVar ∧
      g'.aws_session_token.map Secret.envVar =
        c9Gen.aws_session_token.map Secret.envVar ∧
      g'.aws_region_name.map Secret.envVar =
        c9Gen.aws_region_name.map Secret.envVar ∧
      g'.aws_profile_name.map Secret.envVar =
        c9Gen.aws_profile_name.map Secret.envVar ∧
      g'.inference_config = none ∧ g'.tool_config = none ∧
      g'.system_prompt = none ∧ g'.model_capabilities = allCaps) ∧
    (∀ f : String → String,
      Generator.to_dict
        { c9Gen with
          aws_access_key_id :=
            c9Gen.aws_access_key_id.map (fun s => ⟨s.envVar, f s.value⟩)
          aws_secret_access_key :=
            c9Gen.aws_secret_access_key.map (fun s => ⟨s.envVar, f s.value⟩)
          aws_session_token :=
            c9Gen.aws_session_token.map (fun s => ⟨s.envVar, f s.value⟩)
          aws_region_name :=
            c9Gen.aws_region_name.map (fun s => ⟨s.envVar, f s.value⟩)
          aws_profile_name :=
            c9Gen.aws_profile_name.map (fun s => ⟨s.envVar, f s.value⟩) } =
      Generator.to_dict c9Gen)) :=
  ⟨by decide, rfl, by decide,
   c9_roundtrip_amended demoRegistry okEnv demoSecretEnv c9Gen allCaps
     (by decide) rfl (by decide)⟩

/-- Helper: the validated body's transport calls are exactly one dispatch on
the built request. -/
theorem runValidated_calls_eq (g : Generator) (client : Client)
    (msgs : List ConverseMessage) (cb : Option Callback)
    (ic : InferenceConfig) (tc : Option ToolConfig)
    (sp : Option (List SysBlock)) :
    (runValidated g client msgs cb ic tc sp).calls =
      [(dispatchTransport g client cb (runRequest g msgs ic tc)).1] := rfl

/-- Helper: the validated body's result is the dispatch result on the built
request. -/
theorem runValidated_result_eq (g : Generator) (client : Client)
    (msgs : List ConverseMessage) (cb : Option Callback)
    (ic : InferenceConfig) (tc : Option ToolConfig)
    (sp : Option (List SysBlock)) :
    (runValidated g client msgs cb ic tc sp).result =
      (dispatchTransport g client cb (runRequest g msgs ic tc)).2 := rfl

/-- Helper: with a streaming callback in effect and CONVERSE_STREAM present,
the dispatched transport operation is the streaming one. -/
theorem dispatchTransport_fst_streaming (g : Generator) (client : Client)
    (cb : Option Callback) (req : Request)
    (h : cb.isSome = true ∧
      ModelCapability.CONVERSE_STREAM ∈ g.model_capabilities) :
    (dispatchTransport g client cb req).1 = TransportCall.streaming req := by
  unfold dispatchTransport
  rw [if_pos h]
  cases h2 : client.converseStream req <;> rfl

/-- Helper: otherwise the dispatched transport operation is the buffered one. -/
theorem dispatchTransport_fst_buffered (g : Generator) (client : Client)
    (cb : Option Callback) (req : Request)
    (h : ¬(cb.isSome = true ∧
      ModelCapability.CONVERSE_STREAM ∈ g.model_capabilities)) :
    (dispatchTransport g client cb req).1 = TransportCall.buffered req := by
  unfold dispatchTransport
  rw [if_neg h]
  cases h2 : client.converse req with
  | error e => rfl
  | ok response =>
    cases h3 : response.output with
    | none => simp [h3]
    | some output => cases h4 : output.message <;> simp [h3, h4]

/-- Helper: either way, the dispatched call carries the request unchanged. -/
theorem dispatchTransport_fst_request (g : Generator) (client : Client)
    (cb : Option Callback) (req : Request) :
    TransportCall.request (dispatchTransport g client cb req).1 = req := by
  by_cases h : cb.isSome = true ∧
      ModelCapability.CONVERSE_STREAM ∈ g.model_capabilities
  · rw [dispatchTransport_fst_streaming g client cb req h]
    rfl
  · rw [dispatchTransport_fst_buffered g client cb req h]
    rfl

/-- Helper: the dispatch result on the buffered path with a successful
transport, as a function of the response fields. -/
theorem dispatchTransport_snd_buffered_ok (g : Generator) (client : Client)
    (cb : Option Callback) (req : Request) (resp : ConverseResponse)
    (hb : ¬(cb.isSome = true ∧
      ModelCapability.CONVERSE_STREAM ∈ g.model_capabilities))
    (hc : client.converse req = Except.ok resp) :
    (dispatchTransport g client cb req).2 =
      (match resp.output with
       | none =>
         Except.error (RunError.keyError "Response does not contain 'output'")
       | some output =>
         match output.message with
         | none =>
           Except.error
             (RunError.keyError "Response 'output' does not contain 'message'")
         | some message =>
           Except.ok
             (mkRunResult g.model_capabilities message resp.toMetadata)) := by
  unfold dispatchTransport
  rw [if_neg hb, hc]
  cases h3 : resp.output with
  | none => simp [h3]
  | some output => cases h4 : output.message <;> simp [h3, h4]

/-- Helper: a ClientError from either transport operation becomes the
inference error wrapping the cause and naming the model. -/
theorem dispatchTransport_snd_error (g : Generator) (client : Client)
    (cb : Option Callback) (req : Request) (e : ClientError)
    (hc : client.converse req = Except.error e)
    (hs : client.converseStream req = Except.error e) :
    (dispatchTransport g client cb req).2 =
      Except.error
        (RunError.inferenceError (inferenceErrorMsg g.model e) e) := by
  unfold dispatchTransport
  by_cases h : cb.isSome = true ∧
      ModelCapability.CONVERSE_STREAM ∈ g.model_capabilities
  · rw [if_pos h, hs]
  · rw [if_neg h, hc]

/-- Helper: every successful dispatch result on a model lacking GUARDRAILS has
no guardrail trace. -/
theorem dispatchTransport_ok_trace_none (g : Generator) (client : Client)
    (cb : Option Callback) (req : Request) (r : RunResult)
    (hcap : ModelCapability.GUARDRAILS ∉ g.model_capabilities)
    (hok : (dispatchTransport g client cb req).2 = Except.ok r) :
    r.guardrail_trace = none := by
  unfold dispatchTransport at hok
  by_cases h : cb.isSome = true ∧
      ModelCapability.CONVERSE_STREAM ∈ g.model_capabilities
  · rw [if_pos h] at hok
    cases h2 : client.converseStream req with
    | error e => rw [h2] at hok; simp at hok
    | ok sresp =>
      rw [h2] at hok
      simp only [Except.ok.injEq] at hok
      rw [← hok]
      simp [mkRunResult, hcap]
  · rw [if_neg h] at hok
    cases h2 : client.converse req with
    | error e => rw [h2] at hok; simp at hok
    | ok resp =>
      rw [h2] at hok
      cases h3 : resp.output with
      | none => simp [h3] at hok
      | some output =>
        cases h4 : output.message with
        | none => simp [h3, h4] at hok
        | some message =>
          simp only [h3, h4, Except.ok.injEq] at hok
          rw [← hok]
          simp [mkRunResult, hcap]

/-- C2: on a validated call, the streaming transport operation is invoked
exactly when a streaming callback is in effect and CONVERSE_STREAM is in the
capability set, and the buffered transport operation is invoked in every other
case; the STREAMING_TOOL_USE step never changes the dispatch. -/
theorem c2_dispatch_iff (g : Generator) (client : Client)
    (messages : RunMessages) (cb : Option Callback) (ic : InferenceConfig)
    (tc : Option ToolConfig) (sp : Option (List SysBlock))
    (msgs : List ConverseMessage)
    (hv : validMessages messages = some msgs) :
    ((∃ r, (run g client messages cb ic tc sp).calls =
        [TransportCall.streaming r]) ↔
      ((pyOrOpt cb g.streaming_callback).isSome = true ∧
        ModelCapability.CONVERSE_STREAM ∈ g.model_capabilities)) ∧
    ((∃ r, (run g client messages cb ic tc sp).calls =
        [TransportCall.buffered r]) ↔
      ¬((pyOrOpt cb g.streaming_callback).isSome = true ∧
        ModelCapability.CONVERSE_STREAM ∈ g.model_capabilities)) := by
  have hc : (run g client messages cb ic tc sp).calls =
      [(dispatchTransport g client (pyOrOpt cb g.streaming_callback)
        (runRequest g msgs ic tc)).1] := by
    rw [run_valid_eq g client messages cb ic tc sp msgs hv,
      runValidated_calls_eq]
  by_cases h : (pyOrOpt cb g.streaming_callback).isSome = true ∧
      ModelCapability.CONVERSE_STREAM ∈ g.model_capabilities
  · rw [hc, dispatchTransport_fst_streaming _ _ _ _ h]
    exact ⟨⟨fun _ => h, fun _ => ⟨_, rfl⟩⟩,
      ⟨fun hr => by obtain ⟨r, hr⟩ := hr; simp at hr,
       fun hn => absurd h hn⟩⟩
  · rw [hc, dispatchTransport_fst_buffered _ _ _ _ h]
    exact ⟨⟨fun hr => by obtain ⟨r, hr⟩ := hr; simp at hr,
      fun hcond => absurd hcond h⟩,
      ⟨fun _ => h, fun _ => ⟨_, rfl⟩⟩⟩

/-- Witness for C2 on a callback-carrying call of a CONVERSE_STREAM model. -/
theorem c2_dispatch_iff_witness :
    validMessages demoMessages = some [demoMessage] ∧
    (((∃ r, (run baseGen okClient demoMessages (some "cb") 0 none none).calls =
        [TransportCall.streaming r]) ↔
      ((pyOrOpt (some "cb") baseGen.streaming_callback).isSome = true ∧
        ModelCapability.CONVERSE_STREAM ∈ baseGen.model_capabilities)) ∧
    ((∃ r, (run baseGen okClient demoMessages (some "cb") 0 none none).calls =
        [TransportCall.buffered r]) ↔
      ¬((pyOrOpt (some "cb") baseGen.streaming_callback).isSome = true ∧
        ModelCapability.CONVERSE_STREAM ∈ baseGen.model_capabilities))) :=
  ⟨rfl, c2_dispatch_iff baseGen okClient demoMessages (some "cb") 0 none none
    [demoMessage] rfl⟩

/-- C7: a ClientError from whichever transport operation is dispatched is
re-raised as one AmazonBedrockInferenceError whose message names the model and
interpolates the cause, which is kept as the wrapped cause; exactly one
transport call is made (no retry). -/
theorem c7_transport_error_wrapped (g : Generator) (client : Client)
    (messages : RunMessages) (cb : Option Callback) (ic : InferenceConfig)
    (tc : Option ToolConfig) (sp : Option (List SysBlock))
    (msgs : List ConverseMessage) (e : ClientError)
    (hv : validMessages messages = some msgs)
    (hc : ∀ req, client.converse req = Except.error e)
    (hs : ∀ req, client.converseStream req = Except.error e) :
    (run g client messages cb ic tc sp).result =
      Except.error
        (RunError.inferenceError (inferenceErrorMsg g.model e) e) ∧
    (run g client messages cb ic tc sp).calls.length = 1 := by
  constructor
  · rw [run_valid_eq g client messages cb ic tc sp msgs hv,
      runValidated_result_eq,
      dispatchTransport_snd_error g client _ _ e (hc _) (hs _)]
  · rw [run_valid_eq g client messages cb ic tc sp msgs hv,
      runValidated_calls_eq]
    rfl

/-- Witness for C7 with a throttling ClientError. -/
theorem c7_transport_error_wrapped_witness :
    validMessages demoMessages = some [demoMessage] ∧
    (run baseGen failClient demoMessages none 0 none none).result =
      Except.error
        (RunError.inferenceError
          (inferenceErrorMsg baseGen.model "ThrottlingException")
          "ThrottlingException") ∧
    (run baseGen failClient demoMessages none 0 none none).calls.length = 1 :=
  ⟨rfl, c7_transport_error_wrapped baseGen failClient demoMessages none 0 none
    none [demoMessage] "ThrottlingException" rfl (fun _ => rfl)
    (fun _ => rfl)⟩

/-- C6: on the buffered path, a transport response lacking the "output" field,
or whose "output" lacks the "message" field, makes run fail with the KeyError
of the structural check, surfaced as-is and never wrapped into the
AmazonBedrockInferenceError (which only catches ClientError); no result record
is returned. -/
theorem c6_malformed_response (g : Generator) (client : Client)
    (messages : RunMessages) (cb : Option Callback) (ic : InferenceConfig)
    (tc : Option ToolConfig) (sp : Option (List SysBlock))
    (msgs : List ConverseMessage) (resp : ConverseResponse)
    (hv : validMessages messages = some msgs)
    (hb : ¬((pyOrOpt cb g.streaming_callback).isSome = true ∧
      ModelCapability.CONVERSE_STREAM ∈ g.model_capabilities))
    (hc : ∀ req, client.converse req = Except.ok resp) :
    (resp.output = none →
      (run g client messages cb ic tc sp).result =
        Except.error
          (RunError.keyError "Response does not contain 'output'")) ∧
    (∀ o, resp.output = some o → o.message = none →
      (run g client messages cb ic tc sp).result =
        Except.error
          (RunError.keyError "Response 'output' does not contain 'message'")) ∧
    (∀ m c, (run g client messages cb ic tc sp).result ≠
      Except.error (RunError.inferenceError m c)) := by
  have h1 : (run g client messages cb ic tc sp).result =
      (dispatchTransport g client (pyOrOpt cb g.streaming_callback)
        (runRequest g msgs ic tc)).2 := by
    rw [run_valid_eq g client messages cb ic tc sp msgs hv,
      runValidated_result_eq]
  rw [h1, dispatchTransport_snd_buffered_ok g client _ _ resp hb (hc _)]
  refine ⟨fun ho => by simp [ho], fun o ho hm => by simp [ho, hm], fun m c => ?_⟩
  cases h3 : resp.output with
  | none => simp
  | some output => cases h4 : output.message <;> simp [h4]

/-- Witness for C6 at a response with no "output" key. -/
theorem c6_malformed_response_witness :
    validMessages demoMessages = some [demoMessage] ∧
    ¬((pyOrOpt none baseGen.streaming_callback).isSome = true ∧
      ModelCapability.CONVERSE_STREAM ∈ baseGen.model_capabilities) ∧
    ((noOutputResponse.output = none →
      (run baseGen noOutputClient demoMessages none 0 none none).result =
        Except.error
          (RunError.keyError "Response does not contain 'output'")) ∧
    (∀ o, noOutputResponse.output = some o → o.message = none →
      (run baseGen noOutputClient demoMessages none 0 none none).result =
        Except.error
          (RunError.keyError "Response 'output' does not contain 'message'")) ∧
    (∀ m c, (run baseGen noOutputClient demoMessages none 0 none none).result ≠
      Except.error (RunError.inferenceError m c))) :=
  ⟨rfl, by decide,
   c6_malformed_response baseGen noOutputClient demoMessages none 0 none none
     [demoMessage] noOutputResponse rfl (by decide) (fun _ => rfl)⟩

/-- C4: on a validated call, a model lacking GUARDRAILS always yields a result
with guardrail_trace = None, even when the transport response holds a trace
field; and on the buffered path of a successful response the guardrail_trace
equals the response's trace exactly when GUARDRAILS is in the capability set. -/
theorem c4_guardrail_trace (g : Generator) (client : Client)
    (messages : RunMessages) (cb : Option Callback) (ic : InferenceConfig)
    (tc : Option ToolConfig) (sp : Option (List SysBlock))
    (msgs : List ConverseMessage) (resp : ConverseResponse) (o : RespOutput)
    (m : ConverseMessage)
    (hv : validMessages messages = some msgs) :
    (ModelCapability.GUARDRAILS ∉ g.model_capabilities →
      ∀ r, (run g client messages cb ic tc sp).result = Except.ok r →
        r.guardrail_trace = none) ∧
    ((∀ req, client.converse req = Except.ok resp) →
      ¬((pyOrOpt cb g.streaming_callback).isSome = true ∧
        ModelCapability.CONVERSE_STREAM ∈ g.model_capabilities) →
      resp.output = some o → o.message = some m →
      ∀ r, (run g client messages cb ic tc sp).result = Except.ok r →
        r.guardrail_trace =
          (if ModelCapability.GUARDRAILS ∈ g.model_capabilities then
            resp.trace
          else none)) := by
  have h1 : (run g client messages cb ic tc sp).result =
      (dispatchTransport g client (pyOrOpt cb g.streaming_callback)
        (runRequest g msgs ic tc)).2 := by
    rw [run_valid_eq g client messages cb ic tc sp msgs hv,
      runValidated_result_eq]
  constructor
  · intro hcap r hok
    rw [h1] at hok
    exact dispatchTransport_ok_trace_none g client _ _ r hcap hok
  · intro hc hb ho hm r hok
    rw [h1, dispatchTransport_snd_buffered_ok g client _ _ resp hb (hc _)]
      at hok
    simp only [ho, hm, Except.ok.injEq] at hok
    rw [← hok]
    rfl

/-- Witness for C4 on a guardrail-less model and a trace-carrying response. -/
theorem c4_guardrail_trace_witness :
    validMessages demoMessages = some [demoMessage] ∧
    ((ModelCapability.GUARDRAILS ∉ noGuardGen.model_capabilities →
      ∀ r, (run noGuardGen okClient demoMessages none 0 none none).result =
          Except.ok r →
        r.guardrail_trace = none) ∧
    ((∀ req, okClient.converse req = Except.ok demoResponse) →
      ¬((pyOrOpt none noGuardGen.streaming_callback).isSome = true ∧
        ModelCapability.CONVERSE_STREAM ∈ noGuardGen.model_capabilities) →
      demoResponse.output = some ⟨some demoMessage⟩ →
      RespOutput.message ⟨some demoMessage⟩ = some demoMessage →
      ∀ r, (run noGuardGen okClient demoMessages none 0 none none).result =
          Except.ok r →
        r.guardrail_trace =
          (if ModelCapability.GUARDRAILS ∈ noGuardGen.model_capabilities then
            demoResponse.trace
          else none))) :=
  ⟨rfl, c4_guardrail_trace noGuardGen okClient demoMessages none 0 none none
    [demoMessage] demoResponse ⟨some demoMessage⟩ demoMessage rfl⟩

/-- Helper: the validated body's warning list, spelled out per capability
check (the vision test runs on the already-filtered messages, and the
streaming-tool test on the already-dropped tool configuration). -/
theorem runValidated_warnings_eq (g : Generator) (client : Client)
    (msgs : List ConverseMessage) (cb : Option Callback)
    (ic : InferenceConfig) (tc : Option ToolConfig)
    (sp : Option (List SysBlock)) :
    (runValidated g client msgs cb ic tc sp).warnings =
      (if ModelCapability.SYSTEM_PROMPTS ∉ g.model_capabilities ∧
          pyTruthy sp = true then [systemPromptWarning g.model] else []) ++
      (if ModelCapability.VISION ∉ g.model_capabilities ∧
          ((if ModelCapability.VISION ∉ g.model_capabilities then
              msgs.map stripImageBlocks
            else msgs).any msgHasImage) = true
        then [visionWarning g.model] else []) ++
      (if ModelCapability.DOCUMENT_CHAT ∉ g.model_capabilities then
          [documentChatWarning g.model] else []) ++
      (if ModelCapability.TOOL_USE ∉ g.model_capabilities ∧
          tc.isSome = true then [toolUseWarning g.model] else []) ++
      (if ModelCapability.STREAMING_TOOL_USE ∉ g.model_capabilities ∧
          cb.isSome = true ∧
          (if ModelCapability.TOOL_USE ∉ g.model_capabilities ∧
              tc.isSome = true then none else tc).isSome = true
        then [streamingToolUseWarning g.model] else []) := rfl

/-- C8: on a model lacking SYSTEM_PROMPTS (and a generator with no stored
system prompt), run with a non-empty system_prompt returns the same result,
makes the same transport calls and leaves the same message state as run with
no system prompt, and logs exactly one extra warning, the system-prompt
warning naming the model, ahead of the shared warnings. -/
theorem c8_system_prompt_ignored (g : Generator) (client : Client)
    (messages : RunMessages) (cb : Option Callback) (ic : InferenceConfig)
    (tc : Option ToolConfig) (sp : Option (List SysBlock))
    (msgs : List ConverseMessage)
    (hv : validMessages messages = some msgs)
    (hcap : ModelCapability.SYSTEM_PROMPTS ∉ g.model_capabilities)
    (hsp : pyTruthy sp = true)
    (hg : pyTruthy g.system_prompt = false) :
    (run g client messages cb ic tc sp).result =
      (run g client messages cb ic tc none).result ∧
    (run g client messages cb ic tc sp).calls =
      (run g client messages cb ic tc none).calls ∧
    (run g client messages cb ic tc sp).messagesAfter =
      (run g client messages cb ic tc none).messagesAfter ∧
    (run g client messages cb ic tc sp).warnings =
      systemPromptWarning g.model ::
        (run g client messages cb ic tc none).warnings := by
  have hA : pyOrList sp g.system_prompt = sp := by
    unfold pyOrList
    rw [hsp]
    simp
  have hB : pyOrList (none : Option (List SysBlock)) g.system_prompt =
      g.system_prompt := rfl
  have hnot : ¬(ModelCapability.SYSTEM_PROMPTS ∉ g.model_capabilities ∧
      pyTruthy g.system_prompt = true) := by
    intro hh
    rw [hg] at hh
    exact Bool.false_ne_true hh.2
  rw [run_valid_eq g client messages cb ic tc sp msgs hv,
    run_valid_eq g client messages cb ic tc none msgs hv, hA, hB]
  refine ⟨rfl, rfl, rfl, ?_⟩
  rw [runValidated_warnings_eq, runValidated_warnings_eq,
    if_pos ⟨hcap, hsp⟩, if_neg hnot]
  simp

/-- Witness for C8 on a model lacking SYSTEM_PROMPTS with a one-block system
prompt. -/
theorem c8_system_prompt_ignored_witness :
    validMessages demoMessages = some [demoMessage] ∧
    ModelCapability.SYSTEM_PROMPTS ∉ noSysGen.model_capabilities ∧
    pyTruthy (some ["You are terse."]) = true ∧
    pyTruthy noSysGen.system_prompt = false ∧
    ((run noSysGen okClient demoMessages none 0 none
        (some ["You are terse."])).result =
      (run noSysGen okClient demoMessages none 0 none none).result ∧
    (run noSysGen okClient demoMessages none 0 none
        (some ["You are terse."])).calls =
      (run noSysGen okClient demoMessages none 0 none none).calls ∧
    (run noSysGen okClient demoMessages none 0 none
        (some ["You are terse."])).messagesAfter =
      (run noSysGen okClient demoMessages none 0 none none).messagesAfter ∧
    (run noSysGen okClient demoMessages none 0 none
        (some ["You are terse."])).warnings =
      systemPromptWarning noSysGen.model ::
        (run noSysGen okClient demoMessages none 0 none none).warnings) :=
  ⟨rfl, by decide, rfl, rfl,
   c8_system_prompt_ignored noSysGen okClient demoMessages none 0 none
     (some ["You are terse."]) [demoMessage] rfl (by decide) rfl rfl⟩

/-- C10: on a validated call the request sent to the transport does not depend
on the supplied system prompt, and it is built from exactly the model
identifier, the inference configuration, the vision-filtered messages, and
the tool configuration surviving the TOOL_USE drop (the Request record has no
other field, in particular no system-prompt field). -/
theorem c10_request_shape (g : Generator) (client : Client)
    (messages : RunMessages) (cb : Option Callback) (ic : InferenceConfig)
    (tc : Option ToolConfig) (sp sp' : Option (List SysBlock))
    (msgs : List ConverseMessage)
    (hv : validMessages messages = some msgs) :
    (run g client messages cb ic tc sp).calls.map TransportCall.request =
      (run g client messages cb ic tc sp').calls.map TransportCall.request ∧
    ∀ c ∈ (run g client messages cb ic tc sp).calls,
      TransportCall.request c =
        buildRequest g.model ic
          (if ModelCapability.VISION ∉ g.model_capabilities then
             msgs.map stripImageBlocks
           else msgs)
          (if ModelCapability.TOOL_USE ∉ g.model_capabilities ∧
              tc.isSome = true then none else tc) := by
  have h1 : (run g client messages cb ic tc sp).calls =
      [(dispatchTransport g client (pyOrOpt cb g.streaming_callback)
        (runRequest g msgs ic tc)).1] := by
    rw [run_valid_eq g client messages cb ic tc sp msgs hv,
      runValidated_calls_eq]
  have h2 : (run g client messages cb ic tc sp').calls =
      [(dispatchTransport g client (pyOrOpt cb g.streaming_callback)
        (runRequest g msgs ic tc)).1] := by
    rw [run_valid_eq g client messages cb ic tc sp' msgs hv,
      runValidated_calls_eq]
  refine ⟨by rw [h1, h2], ?_⟩
  intro c hc
  rw [h1] at hc
  rcases List.mem_singleton.mp hc with rfl
  rw [dispatchTransport_fst_request]
  rfl

/-- Witness for C10 with a system prompt supplied on one side only and a tool
configuration present. -/
theorem c10_request_shape_witness :
    validMessages demoMessages = some [demoMessage] ∧
    ((run baseGen okClient demoMessages none 0 (some 3)
        (some ["You are terse."])).calls.map TransportCall.request =
      (run baseGen okClient demoMessages none 0 (some 3)
        none).calls.map TransportCall.request ∧
    ∀ c ∈ (run baseGen okClient demoMessages none 0 (some 3)
        (some ["You are terse."])).calls,
      TransportCall.request c =
        buildRequest baseGen.model 0
          (if ModelCapability.VISION ∉ baseGen.model_capabilities then
             [demoMessage].map stripImageBlocks
           else [demoMessage])
          (if ModelCapability.TOOL_USE ∉ baseGen.model_capabilities ∧
              (some 3 : Option ToolConfig).isSome = true then none
           else some 3)) :=
  ⟨rfl, c10_request_shape baseGen okClient demoMessages none 0 (some 3)
    (some ["You are terse."]) none [demoMessage] rfl⟩
